import Mathlib

/-!
Shallow embedding of the UltraGrid SDL2 video display module
(video_display/sdl2.cpp) and proofs about its frame-handoff protocol,
reconfiguration handshake, render event loop and key translation.

Pointers to `struct video_frame` are modelled as `Frame` values carrying an
identity and the descriptor they were allocated with; the SDL texture attached
through `callbacks.dispose_udata` is implicit in that identity.  SDL resource
creation (textures, window, renderer) can fail at run time, so those calls are
modelled by boolean oracles passed to the functions that perform them.
Functions that in the C source block on a condition variable are embedded as
functions of the state observed when the wait completes; a call whose wait
cannot complete at a quiescent point (or whose assertion fails) returns `none`.
-/

/-- Descriptor of a video mode, from `struct video_desc` (width, height,
pixel format, interlacing). -/
structure VideoDesc where
  width : Nat
  height : Nat
  color_spec : Nat
  interlacing : Nat
deriving DecidableEq

/-- A frame buffer from the pool: `id` models pointer identity (and the
attached SDL texture), `desc` the descriptor it was allocated with by
`vf_alloc_desc`. -/
structure Frame where
  id : Nat
  desc : VideoDesc
deriving DecidableEq

/-- The deinterlace policy `enum class deint { off, on, force }`. -/
inductive Deint
  | off
  | on
  | force
deriving DecidableEq

/-- Responses produced by the control-message handler (`new_response` with
`RESPONSE_OK` or `RESPONSE_BAD_REQUEST`). -/
inductive Response
  | ok
  | badRequest (reason : String)
deriving DecidableEq

/-- Events posted to the SDL event queue that the model covers: user
new-frame events (payload `data1`, a possibly null frame pointer) and
user new-message events (each carrying the drained command text). -/
inductive Ev
  | newFrame (f : Option Frame)
  | message (text : String)
deriving DecidableEq

/-- The mutable session state `struct state_sdl2`, restricted to the fields
the modelled operations read or write.  Fields `window` and `renderer` record
whether the corresponding SDL resource currently exists. -/
structure StateSdl2 where
  deinterlace : Deint
  fs : Bool
  fixed_size : Bool
  window : Bool
  renderer : Bool
  window_title : String
  current_display_desc : VideoDesc
  last_frame : Option Frame
  free_frame_queue : List Frame
  reconfiguration_status : Int
deriving DecidableEq

/-- `#define BUFFER_COUNT 2`. -/
def BUFFER_COUNT : Nat := 2

/-- Modelled from the spec: sentinel timeout values of `display_put_frame`
come from `video_display.h`, which is not among the provided sources.  The
spec's `discard` mode is a negative sentinel matched exactly, `blockingWait`
is the largest 64-bit value (so that it is positive, as required by the
`timeout_ns > 0` test), and `immediate` is `0`. -/
def PUTF_DISCARD : Int := -1

/-- Modelled from the spec: the `blockingWait` sentinel (`LLONG_MAX`),
see `PUTF_DISCARD`. -/
def PUTF_BLOCKING : Int := 9223372036854775807

/-- SDL2 modifier bit `KMOD_NUM`. -/
def KMOD_NUM : Nat := 0x1000

/-- SDL2 modifier bit `KMOD_CAPS`. -/
def KMOD_CAPS : Nat := 0x2000

/-- SDL2 modifier mask `KMOD_CTRL = KMOD_LCTRL | KMOD_RCTRL`. -/
def KMOD_CTRL : Nat := 0x00C0

/-- SDL2 modifier mask `KMOD_SHIFT = KMOD_LSHIFT | KMOD_RSHIFT`. -/
def KMOD_SHIFT : Nat := 0x0003

/-- SDL2 `SDLK_SCANCODE_MASK = 1 << 30`. -/
def SDLK_SCANCODE_MASK : Nat := 0x40000000

/-- SDL2 keycode `SDLK_LCTRL` (scancode 224 with the scancode mask). -/
def SDLK_LCTRL : Nat := 0x400000E0

/-- SDL2 keycode `SDLK_RCTRL` (scancode 228 with the scancode mask). -/
def SDLK_RCTRL : Nat := 0x400000E4

/-- SDL2 keycode `SDLK_RIGHT`. -/
def SDLK_RIGHT : Nat := 0x4000004F

/-- SDL2 keycode `SDLK_LEFT`. -/
def SDLK_LEFT : Nat := 0x40000050

/-- SDL2 keycode `SDLK_DOWN`. -/
def SDLK_DOWN : Nat := 0x40000051

/-- SDL2 keycode `SDLK_UP`. -/
def SDLK_UP : Nat := 0x40000052

/-- SDL2 keycode `SDLK_PAGEDOWN`. -/
def SDLK_PAGEDOWN : Nat := 0x4000004E

/-- SDL2 keycode `SDLK_PAGEUP`. -/
def SDLK_PAGEUP : Nat := 0x4000004B

/-- Modelled from the spec: the logical key codes `K_RIGHT` .. `K_PGUP` and
the `K_CTRL` combination come from `keyboard_control.h`, which is not among
the provided sources.  The spec only requires that the navigation keys map to
dedicated logical codes and that control combines with the base key; the
claims proved below do not depend on the concrete values, only on the
structure of the translation. -/
def K_RIGHT : Int := 0x100000001

/-- Modelled from the spec: see `K_RIGHT`. -/
def K_LEFT : Int := 0x100000002

/-- Modelled from the spec: see `K_RIGHT`. -/
def K_DOWN : Int := 0x100000003

/-- Modelled from the spec: see `K_RIGHT`. -/
def K_UP : Int := 0x100000004

/-- Modelled from the spec: see `K_RIGHT`. -/
def K_PGDOWN : Int := 0x100000005

/-- Modelled from the spec: see `K_RIGHT`. -/
def K_PGUP : Int := 0x100000006

/-- Modelled from the spec: see `K_RIGHT`; a control+key logical code. -/
def K_CTRL (k : Nat) : Int := 0x200000000 + Int.ofNat k

/-- The C `toupper` in the default locale: lowercase ASCII letters map to
uppercase, everything else is unchanged. -/
def toupperC (c : Nat) : Nat :=
  if 97 ≤ c ∧ c ≤ 122 then c - 32 else c

/-- An SDL key symbol: keycode `sym` and 16-bit modifier bitmask `mod`
(field `SDL_Keysym.mod` is a `Uint16`). -/
structure SDL_Keysym where
  sym : Nat
  mod : Nat
deriving DecidableEq

/-- Body of `translate_sdl_key_to_ug` after the opening
`sym.mod &= ~(KMOD_NUM | KMOD_CAPS)` line; `m0` is the already-stripped
modifier set. -/
def translate_core (sym : Nat) (m0 : Nat) : Int :=
  if sym = SDLK_LCTRL ∨ sym = SDLK_RCTRL then 0
  else
    let ctrl := m0 &&& KMOD_CTRL ≠ 0
    let m1 := m0 &&& 0xFF3F
    let shift := m1 &&& KMOD_SHIFT ≠ 0
    let m2 := m1 &&& 0xFFFC
    if m2 ≠ 0 then -1
    else if sym &&& SDLK_SCANCODE_MASK = 0 then
      let k := if shift then toupperC sym else sym
      if ctrl then K_CTRL k else Int.ofNat k
    else if sym = SDLK_RIGHT then K_RIGHT
    else if sym = SDLK_LEFT then K_LEFT
    else if sym = SDLK_DOWN then K_DOWN
    else if sym = SDLK_UP then K_UP
    else if sym = SDLK_PAGEDOWN then K_PGDOWN
    else if sym = SDLK_PAGEUP then K_PGUP
    else -1

/-- `translate_sdl_key_to_ug`: first strips the num- and caps-lock bits
(`mod &= ~(KMOD_NUM | KMOD_CAPS)` on a `Uint16`, i.e. `mod &&& 0xCFFF`),
then runs the remaining translation. -/
def translate_sdl_key_to_ug (s : SDL_Keysym) : Int :=
  translate_core s.sym (s.mod &&& 0xCFFF)

/-- `display_frame`: a null frame is ignored; deinterlacing mutates only the
pixel data (opaque here); the frame is presented; if it equals `last_frame`
the call is a pure redraw and returns early, otherwise the frame is pushed
onto the free queue, the consumer condition variable is notified, and the
frame is recorded as `last_frame`. -/
def display_frame (s : StateSdl2) (frame : Option Frame) : StateSdl2 :=
  match frame with
  | none => s
  | some f =>
    if s.last_frame = some f then s
    else { s with free_frame_queue := s.free_frame_queue ++ [f],
                  last_frame := some f }

/-- `display_sdl2_getf`: waits on `frame_consumed_cv` until the free queue is
non-empty, then pops the front buffer.  At a quiescent point with an empty
queue the call has not completed, modelled as `none`. -/
def display_sdl2_getf (s : StateSdl2) : Option (Frame × StateSdl2) :=
  match s.free_frame_queue with
  | [] => none
  | f :: rest => some (f, { s with free_frame_queue := rest })

/-- `display_sdl2_putf`: the state argument is the state observed when the
(possibly absent) condition-variable wait completes.  `PUTF_DISCARD` pushes
the frame straight back onto the free queue (its `assert(frame != nullptr)`
fails on a null frame, modelled as `none`).  A blocking wait completes only
with a non-empty queue, so that combination with an empty queue is `none`.
Otherwise a non-null frame facing an empty queue is dropped: it is pushed
onto the free queue and `1` is returned; in every remaining case the frame
(possibly null) is posted as a new-frame event and `0` is returned.  The
result carries the new state, the return code, and the posted events. -/
def display_sdl2_putf (s : StateSdl2) (frame : Option Frame)
    (timeout_ns : Int) : Option (StateSdl2 × Int × List Ev) :=
  if timeout_ns = PUTF_DISCARD then
    match frame with
    | none => none
    | some f =>
      some ({ s with free_frame_queue := s.free_frame_queue ++ [f] }, 0, [])
  else
    match frame with
    | some f =>
      if timeout_ns = PUTF_BLOCKING ∧ s.free_frame_queue = [] then none
      else if s.free_frame_queue = [] then
        some ({ s with free_frame_queue := s.free_frame_queue ++ [f] }, 1, [])
      else some (s, 0, [Ev.newFrame (some f)])
    | none => some (s, 0, [Ev.newFrame none])

/-- `display_sdl2_process_key`: `d` (100) toggles deinterlacing between
`off` and `on` (anything other than `off` becomes `off`), `f` (102) toggles
fullscreen (the `SDL_SetWindowFullscreen` call acts on the SDL window),
`q` (113) requests process exit through the external `exit_uv`; any other
key is unhandled. -/
def display_sdl2_process_key (s : StateSdl2) (key : Int) : StateSdl2 × Bool :=
  if key = 100 then
    ({ s with deinterlace :=
        if s.deinterlace = Deint.off then Deint.on else Deint.off }, true)
  else if key = 102 then
    ({ s with fs := !s.fs }, true)
  else if key = 113 then
    (s, true)
  else
    (s, false)

/-- Whitespace as recognized by `isspace` in the C locale. -/
def isSpaceC (c : Char) : Bool :=
  c = ' ' || c = '\t' || c = '\n' || c = '\x0b' || c = '\x0c' || c = '\r'

/-- Accumulate a run of leading decimal digits. -/
def digitsVal : List Char → Nat → Nat
  | [], acc => acc
  | c :: rest, acc =>
    if '0' ≤ c && c ≤ '9' then digitsVal rest (acc * 10 + (c.toNat - 48))
    else acc

/-- Whether the list starts with a decimal digit. -/
def headIsDigit : List Char → Bool
  | [] => false
  | c :: _ => '0' ≤ c && c ≤ '9'

/-- `sscanf(text, "%d", &key)` as used by the message handler: skip leading
whitespace, accept an optional sign followed by at least one digit; `none`
models a conversion count of `0`. -/
def sscanf_d (text : String) : Option Int :=
  let cs := text.toList.dropWhile isSpaceC
  match cs with
  | '-' :: rest =>
    if headIsDigit rest then some (-(Int.ofNat (digitsVal rest 0))) else none
  | '+' :: rest =>
    if headIsDigit rest then some (Int.ofNat (digitsVal rest 0)) else none
  | _ =>
    if headIsDigit cs then some (Int.ofNat (digitsVal cs 0)) else none

/-- One control message, as handled inside the new-message branch of
`display_sdl2_run`: a `win-title ` command sets the window title and responds
OK; a text parsing as an integer is fed to `display_sdl2_process_key` and
responds OK when handled, bad request otherwise; anything else is a bad
request. -/
def display_sdl2_handle_message (s : StateSdl2) (text : String) :
    StateSdl2 × Response :=
  if text.startsWith "win-title " then
    ({ s with window_title := text.drop 10 }, Response.ok)
  else
    match sscanf_d text with
    | some key =>
      let p := display_sdl2_process_key s key
      if p.2 then (p.1, Response.ok)
      else (p.1, Response.badRequest "Unsupported key for SDL")
    | none => (s, Response.badRequest "Wrong command")

/-- Result of running the render loop on a finite queue of events: the final
state, the frames passed to `display_frame` in order, the control-message
responses in order, and whether the loop exited through the poison pill. -/
structure RunResult where
  state : StateSdl2
  displayed : List Frame
  responses : List Response
  exited : Bool
deriving DecidableEq

/-- The render loop `display_sdl2_run` restricted to the modelled events,
consuming the already-serialized SDL event queue in FIFO order: a non-null
new-frame event is displayed, a null one is the poison pill and makes the
loop exit (remaining events are not dequeued by this loop), and a message
event runs the control-message handler. -/
def display_sdl2_run : StateSdl2 → List Ev → RunResult
  | s, [] => ⟨s, [], [], false⟩
  | s, Ev.newFrame none :: _ => ⟨s, [], [], true⟩
  | s, Ev.newFrame (some f) :: rest =>
    let r := display_sdl2_run (display_frame s (some f)) rest
    ⟨r.state, f :: r.displayed, r.responses, r.exited⟩
  | s, Ev.message text :: rest =>
    let p := display_sdl2_handle_message s text
    let r := display_sdl2_run p.1 rest
    ⟨r.state, r.displayed, p.2 :: r.responses, r.exited⟩

/-- `cleanup_frames`: clears `last_frame` and pops every buffer from the free
queue, destroying its texture and storage. -/
def cleanup_frames (s : StateSdl2) : StateSdl2 :=
  { s with last_frame := none, free_frame_queue := [] }

/-- The allocation loop of `recreate_textures`: for each index below the
remaining count, `SDL_CreateTexture` either succeeds (per the oracle `texOk`)
and a frame allocated with `desc` is pushed onto the free queue, or the loop
aborts returning `false` with the queue as built so far. -/
def recreate_textures_loop (desc : VideoDesc) (texOk : Nat → Bool) :
    Nat → Nat → StateSdl2 → StateSdl2 × Bool
  | _, 0, s => (s, true)
  | i, n + 1, s =>
    if texOk i then
      recreate_textures_loop desc texOk (i + 1) n
        { s with free_frame_queue := s.free_frame_queue ++ [⟨i, desc⟩] }
    else (s, false)

/-- `recreate_textures`: first `cleanup_frames`, then allocate `BUFFER_COUNT`
buffers for `desc`, aborting on the first texture-creation failure. -/
def recreate_textures (s : StateSdl2) (desc : VideoDesc) (texOk : Nat → Bool) :
    StateSdl2 × Bool :=
  recreate_textures_loop desc texOk 0 BUFFER_COUNT (cleanup_frames s)

/-- `display_sdl2_reconfigure_real`, executed on the render thread.  In
fixed-size mode with an existing window only the logical size is updated and
the pool rebuilt, and the boolean result of `recreate_textures` is returned
converted to `int` (`TRUE = 1`, `FALSE = 0`).  Otherwise the window and
renderer are destroyed and recreated (success governed by the oracles
`windowOk` and `rendererOk`; each failure returns `FALSE` at once), the pool
is rebuilt, and only on full success is `desc` stored as
`current_display_desc` and `TRUE` returned. -/
def display_sdl2_reconfigure_real (s : StateSdl2) (desc : VideoDesc)
    (texOk : Nat → Bool) (windowOk rendererOk : Bool) : StateSdl2 × Int :=
  if s.fixed_size ∧ s.window then
    let p := recreate_textures s desc texOk
    (p.1, if p.2 then 1 else 0)
  else
    let s1 := { s with window := windowOk }
    if ¬ windowOk then (s1, 0)
    else
      let s2 := { s1 with renderer := rendererOk }
      if ¬ rendererOk then (s2, 0)
      else
        let p := recreate_textures s2 desc texOk
        if ¬ p.2 then (p.1, 0)
        else ({ p.1 with current_display_desc := desc }, 1)

/-- `display_sdl2_reconfigure`, executed on the requesting thread: posts a
reconfigure event carrying `desc`, sets the shared `reconfiguration_status`
slot to `-1` (pending), waits on `reconfigured_cv` until the slot is `≥ 0`,
and returns the slot's value.  The render thread's handling of the event
(running `display_sdl2_reconfigure_real` and storing its status) is inlined
at the point where the requester's wait completes. -/
def display_sdl2_reconfigure (s : StateSdl2) (desc : VideoDesc)
    (texOk : Nat → Bool) (windowOk rendererOk : Bool) : StateSdl2 × Int :=
  let s1 := { s with reconfiguration_status := -1 }
  let p := display_sdl2_reconfigure_real s1 desc texOk windowOk rendererOk
  let s2 := { p.1 with reconfiguration_status := p.2 }
  (s2, s2.reconfiguration_status)

/-- The frame carried by a posted new-frame event, if any. -/
def evFrame : Ev → Option Frame
  | Ev.newFrame (some f) => some f
  | Ev.newFrame none => none
  | Ev.message _ => none

/-- A quiescent configuration of the producer/render-thread session: the
display state (owning the free queue and `last_frame`), the buffers currently
held by the producer, and the new-frame events posted but not yet dequeued
by the render loop (FIFO). -/
structure SessionConfig where
  state : StateSdl2
  held : List Frame
  inflight : List Frame
deriving DecidableEq

/-- Number of buffers in the free queue plus buffers held by the producer or
in flight to the render thread. -/
def poolCount (c : SessionConfig) : Nat :=
  c.state.free_frame_queue.length + c.held.length + c.inflight.length

/-- One completed operation between quiescent points: a `display_sdl2_getf`
that popped a buffer, a `display_sdl2_putf` of a held buffer in any mode
(the posted events join the in-flight queue), or the render loop dequeuing
the oldest posted new-frame event and running `display_frame` on it. -/
inductive PoolStep : SessionConfig → SessionConfig → Prop
  | getf (c c' : SessionConfig) (f : Frame) (s' : StateSdl2)
      (h : display_sdl2_getf c.state = some (f, s'))
      (h' : c' = ⟨s', c.held ++ [f], c.inflight⟩) : PoolStep c c'
  | putf (c c' : SessionConfig) (f : Frame) (t : Int)
      (pre post : List Frame) (s' : StateSdl2) (code : Int) (evs : List Ev)
      (hheld : c.held = pre ++ f :: post)
      (hp : display_sdl2_putf c.state (some f) t = some (s', code, evs))
      (h' : c' = ⟨s', pre ++ post, c.inflight ++ evs.filterMap evFrame⟩) :
      PoolStep c c'
  | display (c c' : SessionConfig) (f : Frame) (rest : List Frame)
      (hq : c.inflight = f :: rest)
      (h' : c' = ⟨display_frame c.state (some f), c.held, rest⟩) :
      PoolStep c c'

/-- Reachability through completed operations. -/
def PoolReach : SessionConfig → SessionConfig → Prop :=
  Relation.ReflTransGen PoolStep

/-- A sample 640x480 descriptor. -/
def descA : VideoDesc := ⟨640, 480, 1, 0⟩

/-- A sample 1280x720 descriptor with a different pixel format. -/
def descB : VideoDesc := ⟨1280, 720, 2, 0⟩

/-- First pool buffer allocated for `descA`. -/
def fA : Frame := ⟨0, descA⟩

/-- Second pool buffer allocated for `descA`. -/
def fB : Frame := ⟨1, descA⟩

/-- A configured session right after a successful reconfiguration to `descA`:
both buffers free, no frame displayed yet. -/
def baseState : StateSdl2 :=
  { deinterlace := Deint.off
    fs := false
    fixed_size := false
    window := true
    renderer := true
    window_title := "UltraGrid - SDL2 Display"
    current_display_desc := descA
    last_frame := none
    free_frame_queue := [fA, fB]
    reconfiguration_status := 1 }

/-- The initial quiescent configuration for the pool transition system. -/
def initConfig : SessionConfig := ⟨baseState, [], []⟩

/-- `baseState` with the given free queue and last displayed frame. -/
def mkPoolState (q : List Frame) (lf : Option Frame) : StateSdl2 :=
  { baseState with free_frame_queue := q, last_frame := lf }

/-- `baseState` with an exhausted free pool (both buffers owned elsewhere). -/
def emptyPoolState : StateSdl2 :=
  { baseState with free_frame_queue := [] }

/-- `baseState` in fixed-size mode (a window already exists). -/
def fixedState : StateSdl2 :=
  { baseState with fixed_size := true }

/-- `baseState` with the deinterlace policy at `force`. -/
def forceState : StateSdl2 :=
  { baseState with deinterlace := Deint.force }

/-! Helper lemmas shared between the claim theorems. -/

/-- Oring in bits disjoint from a mask does not change the masked value. -/
theorem lor_land_of_disjoint (m a c : Nat) (h : a &&& c = 0) :
    (m ||| a) &&& c = m &&& c := by
  apply Nat.eq_of_testBit_eq
  intro i
  have hb : (a.testBit i && c.testBit i) = false := by
    have h2 := congrArg (fun x => Nat.testBit x i) h
    simpa [Nat.testBit_land] using h2
  simp only [Nat.testBit_land, Nat.testBit_lor]
  cases hm : Nat.testBit m i <;> cases ha : Nat.testBit a i <;>
    cases hc : Nat.testBit c i <;> simp_all

/-- Masking with a superset of a mask first does not change the masked value. -/
theorem land_land_absorb (m a c : Nat) (h : a &&& c = c) :
    (m &&& a) &&& c = m &&& c := by
  rw [Nat.land_assoc, h]

/-- The num- and caps-lock strip makes `translate_sdl_key_to_ug` depend on the
modifiers only through `mod &&& 0xCFFF`. -/
theorem translate_depends_on_stripped (k m : Nat) :
    translate_sdl_key_to_ug ⟨k, m⟩ = translate_core k (m &&& 0xCFFF) := rfl

/-- Explicit value of `recreate_textures` for `BUFFER_COUNT = 2`, by cases on
the two texture allocations. -/
theorem recreate_textures_eq (s : StateSdl2) (desc : VideoDesc)
    (texOk : Nat → Bool) :
    recreate_textures s desc texOk =
      if texOk 0 then
        if texOk 1 then
          ({ cleanup_frames s with free_frame_queue := [⟨0, desc⟩, ⟨1, desc⟩] },
            true)
        else
          ({ cleanup_frames s with free_frame_queue := [⟨0, desc⟩] }, false)
      else (cleanup_frames s, false) := by
  cases h0 : texOk 0 <;> cases h1 : texOk 1 <;>
    simp [recreate_textures, BUFFER_COUNT, recreate_textures_loop, h0, h1,
      cleanup_frames]

/-- `display_sdl2_reconfigure_real` only ever reports `0` (failure) or `1`
(success), and on `1` the free pool holds exactly `BUFFER_COUNT` buffers, all
allocated with the requested descriptor. -/
theorem reconfigure_real_status (s : StateSdl2) (desc : VideoDesc)
    (texOk : Nat → Bool) (windowOk rendererOk : Bool) :
    (display_sdl2_reconfigure_real s desc texOk windowOk rendererOk).2 = 0 ∨
    ((display_sdl2_reconfigure_real s desc texOk windowOk rendererOk).2 = 1 ∧
     (display_sdl2_reconfigure_real s desc texOk windowOk
        rendererOk).1.free_frame_queue.length = BUFFER_COUNT ∧
     ∀ f ∈ (display_sdl2_reconfigure_real s desc texOk windowOk
        rendererOk).1.free_frame_queue, f.desc = desc) := by
  by_cases hf : s.fixed_size ∧ s.window <;>
    cases hw : windowOk <;> cases hr : rendererOk <;>
      cases h0 : texOk 0 <;> cases h1 : texOk 1 <;>
        simp [display_sdl2_reconfigure_real, recreate_textures_eq, hf, h0, h1,
          BUFFER_COUNT]

/-- Handling the control command string `"100"` toggles the deinterlace
policy (via key 100 = ASCII `d`) and responds OK. -/
theorem handle_100 (s : StateSdl2) :
    display_sdl2_handle_message s "100" =
      ({ s with deinterlace :=
          if s.deinterlace = Deint.off then Deint.on else Deint.off },
        Response.ok) := by
  rw [display_sdl2_handle_message,
    show ("100".startsWith "win-title ") = false from by decide,
    show sscanf_d "100" = some 100 from by decide]
  simp [display_sdl2_process_key]

/-! Claim theorems. -/

/-- Claim C8: key translation ignores the num-lock and caps-lock modifiers
(adding either bit, or clearing either bit, never changes the result, and in
particular translating key d under caps lock equals translating it bare); a
lone control key translates to `0`, the no-op code, for every modifier set;
and a printable key under shift translates to its uppercase code point
(key a with shift gives 65, the code of A). -/
theorem C8_translate_properties :
    (∀ k m,
      translate_sdl_key_to_ug ⟨k, m ||| KMOD_NUM⟩ =
        translate_sdl_key_to_ug ⟨k, m⟩ ∧
      translate_sdl_key_to_ug ⟨k, m ||| KMOD_CAPS⟩ =
        translate_sdl_key_to_ug ⟨k, m⟩ ∧
      translate_sdl_key_to_ug ⟨k, m &&& 0xEFFF⟩ =
        translate_sdl_key_to_ug ⟨k, m⟩ ∧
      translate_sdl_key_to_ug ⟨k, m &&& 0xDFFF⟩ =
        translate_sdl_key_to_ug ⟨k, m⟩) ∧
    translate_sdl_key_to_ug ⟨100, KMOD_CAPS⟩ =
      translate_sdl_key_to_ug ⟨100, 0⟩ ∧
    (∀ m, translate_sdl_key_to_ug ⟨SDLK_LCTRL, m⟩ = 0 ∧
      translate_sdl_key_to_ug ⟨SDLK_RCTRL, m⟩ = 0) ∧
    translate_sdl_key_to_ug ⟨97, KMOD_SHIFT⟩ = 65 := by
  refine ⟨fun k m => ⟨?_, ?_, ?_, ?_⟩, by decide, fun m => ⟨?_, ?_⟩, by decide⟩
  · rw [translate_depends_on_stripped, translate_depends_on_stripped,
      lor_land_of_disjoint m KMOD_NUM 0xCFFF (by decide)]
  · rw [translate_depends_on_stripped, translate_depends_on_stripped,
      lor_land_of_disjoint m KMOD_CAPS 0xCFFF (by decide)]
  · rw [translate_depends_on_stripped, translate_depends_on_stripped,
      land_land_absorb m 0xEFFF 0xCFFF (by decide)]
  · rw [translate_depends_on_stripped, translate_depends_on_stripped,
      land_land_absorb m 0xDFFF 0xCFFF (by decide)]
  · simp [translate_sdl_key_to_ug, translate_core]
  · simp [translate_sdl_key_to_ug, translate_core]

/-- Claim C4: a non-null frame submitted with a finite positive timeout while
the free pool is empty (still empty when the timed wait expires) is dropped:
the call returns the dropped status `1` (distinct from success `0`, and a
return value rather than an exception), posts no new-frame event to the
render loop, and pushes the incoming buffer back onto the free queue. -/
theorem C4_timed_wait_drop (s : StateSdl2) (f : Frame) (t : Int)
    (hq : s.free_frame_queue = []) (ht : 0 < t) (hb : t ≠ PUTF_BLOCKING) :
    display_sdl2_putf s (some f) t =
      some ({ s with free_frame_queue := [f] }, 1, []) ∧ (1 : Int) ≠ 0 := by
  have hd : t ≠ PUTF_DISCARD := by
    rw [PUTF_DISCARD]
    omega
  refine ⟨?_, by decide⟩
  simp [display_sdl2_putf, hd, hb, hq]

/-- Witness for C4 at a concrete exhausted pool and a 5 ns timeout. -/
theorem C4_witness :
    display_sdl2_putf emptyPoolState (some fA) 5 =
      some ({ emptyPoolState with free_frame_queue := [fA] }, 1, []) ∧
    (1 : Int) ≠ 0 :=
  C4_timed_wait_drop emptyPoolState fA 5 rfl (by decide) (by decide)

/-- Counterexample to claim C5: a non-null frame submitted with the immediate
(zero) timeout while the free pool is empty is NOT posted to the render loop;
it is dropped with status `1` and returned to the free queue. -/
theorem C5_counterexample :
    display_sdl2_putf emptyPoolState (some fA) 0 =
      some ({ emptyPoolState with free_frame_queue := [fA] }, 1, []) := by
  decide

/-- Claim C5 (amended): a frame submitted with the immediate (zero) timeout is
posted as a new-frame event without waiting whenever the free pool is
non-empty or the frame is the null sentinel; a non-null frame facing an empty
pool is instead dropped (see the counterexample). -/
theorem C5_immediate_posts (s : StateSdl2) (f : Option Frame)
    (h : s.free_frame_queue ≠ [] ∨ f = none) :
    display_sdl2_putf s f 0 = some (s, 0, [Ev.newFrame f]) := by
  rcases f with _ | g
  · simp [display_sdl2_putf, PUTF_DISCARD]
  · rcases h with h | h
    · simp [display_sdl2_putf, PUTF_DISCARD, PUTF_BLOCKING, h]
    · cases h

/-- Witness for C5 at a concrete non-empty pool. -/
theorem C5_witness :
    display_sdl2_putf baseState (some fA) 0 =
      some (baseState, 0, [Ev.newFrame (some fA)]) :=
  C5_immediate_posts baseState (some fA) (Or.inl (by decide))

/-- Claim C10: displaying a new frame (one differing from the last displayed
frame) pushes that same buffer onto the free queue and records it as the last
frame; consequently, when it was the only free buffer, an immediately
following acquire returns that very buffer to the producer while it is still
the redraw source held in `last_frame`. -/
theorem C10_display_recycles_redraw_source (s : StateSdl2) (f : Frame)
    (h : s.last_frame ≠ some f) :
    (display_frame s (some f)).free_frame_queue = s.free_frame_queue ++ [f] ∧
    (display_frame s (some f)).last_frame = some f ∧
    (s.free_frame_queue = [] →
      ∃ s', display_sdl2_getf (display_frame s (some f)) = some (f, s') ∧
        s'.last_frame = some f) := by
  refine ⟨?_, ?_, ?_⟩
  · simp [display_frame, h]
  · simp [display_frame, h]
  · intro hq
    refine ⟨{ s with free_frame_queue := [], last_frame := some f }, ?_, rfl⟩
    simp [display_frame, h, display_sdl2_getf, hq]

/-- Witness for C10: displaying `fA` into an exhausted pool makes it the one
free buffer and the next acquire hands it back while it is the last frame. -/
theorem C10_witness :
    (display_frame emptyPoolState (some fA)).free_frame_queue =
      emptyPoolState.free_frame_queue ++ [fA] ∧
    (display_frame emptyPoolState (some fA)).last_frame = some fA ∧
    (emptyPoolState.free_frame_queue = [] →
      ∃ s', display_sdl2_getf (display_frame emptyPoolState (some fA)) =
          some (fA, s') ∧ s'.last_frame = some fA) :=
  C10_display_recycles_redraw_source emptyPoolState fA (by decide)

/-- Counterexample to claim C2: a reconfiguration (fixed-size mode, window
present) whose second texture allocation fails returns failure while leaving
the free pool neither unchanged nor empty: it holds exactly one buffer, of
the new descriptor. -/
theorem C2_counterexample :
    (display_sdl2_reconfigure_real fixedState descB (fun i => i = 0) true
        true).2 = 0 ∧
    (display_sdl2_reconfigure_real fixedState descB (fun i => i = 0) true
        true).1.free_frame_queue = [⟨0, descB⟩] ∧
    fixedState.free_frame_queue = [fA, fB] := by
  decide

/-- Claim C2 (amended): a reconfiguration returning success leaves exactly
`BUFFER_COUNT` buffers in the free pool, all with the new descriptor; one
returning failure leaves the pool either unchanged (window or renderer
creation failed, before the pool was touched) or holding fewer than
`BUFFER_COUNT` buffers, all of the new descriptor (texture allocation failed
mid-rebuild) — never a mixture of old and new buffers. -/
theorem C2_reconfigure_pool_atomicity (s : StateSdl2) (desc : VideoDesc)
    (texOk : Nat → Bool) (windowOk rendererOk : Bool) :
    ((display_sdl2_reconfigure_real s desc texOk windowOk rendererOk).2 = 1 →
      (display_sdl2_reconfigure_real s desc texOk windowOk
          rendererOk).1.free_frame_queue.length = BUFFER_COUNT ∧
      ∀ f ∈ (display_sdl2_reconfigure_real s desc texOk windowOk
          rendererOk).1.free_frame_queue, f.desc = desc) ∧
    ((display_sdl2_reconfigure_real s desc texOk windowOk rendererOk).2 = 0 →
      (display_sdl2_reconfigure_real s desc texOk windowOk
          rendererOk).1.free_frame_queue = s.free_frame_queue ∨
      ((display_sdl2_reconfigure_real s desc texOk windowOk
          rendererOk).1.free_frame_queue.length < BUFFER_COUNT ∧
       ∀ f ∈ (display_sdl2_reconfigure_real s desc texOk windowOk
          rendererOk).1.free_frame_queue, f.desc = desc)) := by
  by_cases hf : s.fixed_size ∧ s.window <;>
    cases windowOk <;> cases rendererOk <;>
      cases h0 : texOk 0 <;> cases h1 : texOk 1 <;>
        simp [display_sdl2_reconfigure_real, recreate_textures_eq, hf, h0, h1,
          BUFFER_COUNT, cleanup_frames]

/-- Witness for C2: a fully successful reconfiguration to `descB`. -/
theorem C2_witness :
    (display_sdl2_reconfigure_real baseState descB (fun _ => true) true
        true).1.free_frame_queue.length = BUFFER_COUNT ∧
    ∀ f ∈ (display_sdl2_reconfigure_real baseState descB (fun _ => true) true
        true).1.free_frame_queue, f.desc = descB :=
  (C2_reconfigure_pool_atomicity baseState descB (fun _ => true) true
    true).1 (by decide)

/-- Counterexample to claim C3: a successful reconfiguration writes status
`1` (the C `TRUE`) into the shared slot, not `0`; and a failed one writes `0`
(the C `FALSE`), not a negative value.  With the claimed convention
(0 = success) the successful outcome below would have to be `0`. -/
theorem C3_counterexample :
    (display_sdl2_reconfigure fixedState descB (fun _ => true) true true).2
      = 1 ∧
    (display_sdl2_reconfigure fixedState descB (fun _ => true) true
        true).1.free_frame_queue.length = BUFFER_COUNT ∧
    (display_sdl2_reconfigure fixedState descB (fun _ => false) true true).2
      = 0 ∧
    ¬ (display_sdl2_reconfigure fixedState descB (fun _ => false) true
        true).2 < 0 := by
  decide

/-- Claim C3 (amended): for every reconfiguration request the render thread
writes into the shared slot a status that is `1` (TRUE) on success — the
free pool then holds exactly `BUFFER_COUNT` rebuilt buffers — and `0`
(FALSE) on failure, never negative; the requester, which marked the slot
`-1` (pending) when posting, blocks until the slot is `≥ 0` and returns the
slot's value as the outcome of the call. -/
theorem C3_handshake_status (s : StateSdl2) (desc : VideoDesc)
    (texOk : Nat → Bool) (windowOk rendererOk : Bool) :
    (display_sdl2_reconfigure s desc texOk windowOk rendererOk).2 =
      (display_sdl2_reconfigure s desc texOk windowOk
        rendererOk).1.reconfiguration_status ∧
    0 ≤ (display_sdl2_reconfigure s desc texOk windowOk rendererOk).2 ∧
    ((display_sdl2_reconfigure s desc texOk windowOk rendererOk).2 = 0 ∨
     ((display_sdl2_reconfigure s desc texOk windowOk rendererOk).2 = 1 ∧
      (display_sdl2_reconfigure s desc texOk windowOk
        rendererOk).1.free_frame_queue.length = BUFFER_COUNT)) ∧
    (display_sdl2_reconfigure s desc texOk windowOk rendererOk).2 =
      (display_sdl2_reconfigure_real { s with reconfiguration_status := -1 }
        desc texOk windowOk rendererOk).2 := by
  have hr := reconfigure_real_status { s with reconfiguration_status := -1 }
    desc texOk windowOk rendererOk
  rcases hr with hr | ⟨hr, hlen, _⟩
  · simp [display_sdl2_reconfigure, hr]
  · simp [display_sdl2_reconfigure, hr, hlen]

/-- Claim C7, evaluated at a failing input: in fixed-size mode with an
existing window, a reconfiguration to a new descriptor returns success
(status `1`) yet leaves `current_display_desc` at its previous value
instead of storing the requested descriptor. -/
theorem C7_fixed_size_desc_not_stored :
    (display_sdl2_reconfigure fixedState descB (fun _ => true) true true).2
      = 1 ∧
    (display_sdl2_reconfigure fixedState descB (fun _ => true) true
        true).1.current_display_desc = descA ∧
    descA ≠ descB := by
  decide

/-- Counterexample to claim C9: starting from the `force` deinterlace
policy, two control commands `"100"` end at `on`, not back at `force` (the
toggle maps anything other than `off` to `off`, then `off` to `on`). -/
theorem C9_counterexample :
    (display_sdl2_handle_message forceState "100").2 = Response.ok ∧
    (display_sdl2_handle_message
      (display_sdl2_handle_message forceState "100").1 "100").2 =
        Response.ok ∧
    (display_sdl2_handle_message
      (display_sdl2_handle_message forceState "100").1 "100").1.deinterlace =
        Deint.on ∧
    forceState.deinterlace = Deint.force ∧ Deint.on ≠ Deint.force := by
  decide

/-- Claim C9 (amended): from either of the `off` and `on` deinterlace
policies, processing the control command `"100"` twice returns the policy to
its original state and both commands respond OK; from `force` the two
commands also respond OK but end at `on`. -/
theorem C9_deinterlace_toggle (s : StateSdl2)
    (h : s.deinterlace ≠ Deint.force) :
    (display_sdl2_handle_message s "100").2 = Response.ok ∧
    (display_sdl2_handle_message
      (display_sdl2_handle_message s "100").1 "100").2 = Response.ok ∧
    (display_sdl2_handle_message
      (display_sdl2_handle_message s "100").1 "100").1.deinterlace =
        s.deinterlace := by
  simp only [handle_100]
  cases hd : s.deinterlace <;> simp_all

/-- Witness for C9 starting from the `off` policy. -/
theorem C9_witness :
    (display_sdl2_handle_message baseState "100").2 = Response.ok ∧
    (display_sdl2_handle_message
      (display_sdl2_handle_message baseState "100").1 "100").2 =
        Response.ok ∧
    (display_sdl2_handle_message
      (display_sdl2_handle_message baseState "100").1 "100").1.deinterlace =
        baseState.deinterlace :=
  C9_deinterlace_toggle baseState (by decide)

/-- Counterexample to claim C6: a new-frame event queued before the sentinel
IS processed (the loop dequeues and displays it before reaching the
sentinel); here `fA`, posted before the null sentinel, is displayed. -/
theorem C6_counterexample :
    (display_sdl2_run baseState
      [Ev.newFrame (some fA), Ev.newFrame none]).displayed = [fA] ∧
    (display_sdl2_run baseState
      [Ev.newFrame (some fA), Ev.newFrame none]).exited = true := by
  decide

/-- Claim C6 (amended): the render loop processes the serialized event queue
in FIFO order; events queued before the null sentinel are processed normally,
the sentinel makes the loop stop, and nothing queued after the sentinel —
in particular no new-frame event — is processed. -/
theorem C6_sentinel_shutdown (s : StateSdl2) (pre post : List Ev)
    (h : Ev.newFrame none ∉ pre) :
    display_sdl2_run s (pre ++ Ev.newFrame none :: post) =
      ⟨(display_sdl2_run s pre).state, (display_sdl2_run s pre).displayed,
       (display_sdl2_run s pre).responses, true⟩ := by
  induction pre generalizing s with
  | nil => simp [display_sdl2_run]
  | cons e rest ih =>
    have h' : Ev.newFrame none ∉ rest := fun hm =>
      h (List.mem_cons_of_mem _ hm)
    have he : e ≠ Ev.newFrame none := fun he =>
      h (he ▸ List.mem_cons_self _ _)
    match e with
    | Ev.newFrame none => exact absurd rfl he
    | Ev.newFrame (some f) =>
      simp [display_sdl2_run, ih _ h']
    | Ev.message t =>
      simp [display_sdl2_run, ih _ h']

/-- Witness for C6: one frame before the sentinel, one after; the run
displays exactly the first and stops. -/
theorem C6_witness :
    display_sdl2_run baseState
        ([Ev.newFrame (some fA)] ++ Ev.newFrame none ::
          [Ev.newFrame (some fB)]) =
      ⟨(display_sdl2_run baseState [Ev.newFrame (some fA)]).state,
       (display_sdl2_run baseState [Ev.newFrame (some fA)]).displayed,
       (display_sdl2_run baseState [Ev.newFrame (some fA)]).responses,
       true⟩ :=
  C6_sentinel_shutdown baseState [Ev.newFrame (some fA)]
    [Ev.newFrame (some fB)] (by decide)

/-- Claim C1, evaluated at a failing interleaving: the pool invariant
(free + held-by-producer + in-flight = BUFFER_COUNT at quiescent points)
is violated by the code.  The producer acquires `fA`, submits it
(blocking), the render loop displays it (recycling it into the pool and
recording it as `last_frame`); the producer then acquires `fB` and discards
it, acquires `fA` again and submits it; the render loop dequeues `fA`, finds
it equal to `last_frame`, and returns early without pushing it back — the
buffer is stranded and the count drops to `BUFFER_COUNT - 1`. -/
theorem C1_pool_invariant_violated :
    poolCount initConfig = BUFFER_COUNT ∧
    ∃ c : SessionConfig, PoolReach initConfig c ∧
      poolCount c ≠ BUFFER_COUNT := by
  refine ⟨by decide, ⟨mkPoolState [fB] (some fA), [], []⟩, ?_, by decide⟩
  have s1 : PoolStep initConfig ⟨mkPoolState [fB] none, [fA], []⟩ :=
    PoolStep.getf _ _ fA (mkPoolState [fB] none) (by decide) (by decide)
  have s2 : PoolStep ⟨mkPoolState [fB] none, [fA], []⟩
      ⟨mkPoolState [fB] none, [], [fA]⟩ :=
    PoolStep.putf _ _ fA PUTF_BLOCKING [] [] (mkPoolState [fB] none) 0
      [Ev.newFrame (some fA)] (by decide) (by decide) (by decide)
  have s3 : PoolStep ⟨mkPoolState [fB] none, [], [fA]⟩
      ⟨mkPoolState [fB, fA] (some fA), [], []⟩ :=
    PoolStep.display _ _ fA [] (by decide) (by decide)
  have s4 : PoolStep ⟨mkPoolState [fB, fA] (some fA), [], []⟩
      ⟨mkPoolState [fA] (some fA), [fB], []⟩ :=
    PoolStep.getf _ _ fB (mkPoolState [fA] (some fA)) (by decide) (by decide)
  have s5 : PoolStep ⟨mkPoolState [fA] (some fA), [fB], []⟩
      ⟨mkPoolState [fA, fB] (some fA), [], []⟩ :=
    PoolStep.putf _ _ fB PUTF_DISCARD [] []
      (mkPoolState [fA, fB] (some fA)) 0 [] (by decide) (by decide)
      (by decide)
  have s6 : PoolStep ⟨mkPoolState [fA, fB] (some fA), [], []⟩
      ⟨mkPoolState [fB] (some fA), [fA], []⟩ :=
    PoolStep.getf _ _ fA (mkPoolState [fB] (some fA)) (by decide) (by decide)
  have s7 : PoolStep ⟨mkPoolState [fB] (some fA), [fA], []⟩
      ⟨mkPoolState [fB] (some fA), [], [fA]⟩ :=
    PoolStep.putf _ _ fA PUTF_BLOCKING [] [] (mkPoolState [fB] (some fA)) 0
      [Ev.newFrame (some fA)] (by decide) (by decide) (by decide)
  have s8 : PoolStep ⟨mkPoolState [fB] (some fA), [], [fA]⟩
      ⟨mkPoolState [fB] (some fA), [], []⟩ :=
    PoolStep.display _ _ fA [] (by decide) (by decide)
  exact Relation.ReflTransGen.head s1 (Relation.ReflTransGen.head s2
    (Relation.ReflTransGen.head s3 (Relation.ReflTransGen.head s4
    (Relation.ReflTransGen.head s5 (Relation.ReflTransGen.head s6
    (Relation.ReflTransGen.head s7 (Relation.ReflTransGen.single s8)))))))
